import Mathlib

/-!
Verification development for the pattern-discovery and swarm-lifecycle
orchestrator.  The Python source is shallowly embedded: dictionaries with
possibly-missing keys become structures of Option fields, numeric values
(Python floats holding exact decimal constants) are modelled by the
rationals, and the polling loops become explicit step functions or
fuel-indexed recursion over a trace of metric snapshots.
-/

namespace BlackboxOrch

/-! ## Data model (dictionaries with optional keys) -/

/-- Compute-needs sub-record of an implementation descriptor. -/
structure ComputeNeeds where
  cpu : Option String
  memory : Option String
  storage : Option String
  deriving DecidableEq

/-- Success-criteria sub-record of a pattern. -/
structure SuccessMetrics where
  min_profit : Option ℚ
  min_roi : Option ℚ
  automation_level : Option ℚ
  deriving DecidableEq

/-- Projected metrics carried by a discovered method. -/
structure Metrics where
  monthly_profit : Option ℚ
  startup_cost : Option ℚ
  automation_level : Option ℚ
  deriving DecidableEq

/-- Implementation descriptor of a pattern. -/
structure Implementation where
  platform : Option String
  traffic_source : Option String
  compute_needs : Option ComputeNeeds
  deriving DecidableEq

/-- A candidate pattern / discovered method.  Every field is optional,
mirroring a Python dictionary in which any key may be absent. -/
structure Pattern where
  id : Option String
  type : Option String
  method : Option String
  success_metrics : Option SuccessMetrics
  implementation : Option Implementation
  metrics : Option Metrics
  deriving DecidableEq

/-! ## PatternDiscoveryEngine structural gate
Embedding of PatternDiscoveryEngine._validate_pattern: sequential checks
that each group of required keys is present, returning False as soon as one
group fails.  A dictionary lookup with default, such as
pattern.get(key, empty), is rendered by Option.getD with an all-none record. -/

/-- Embeds PatternDiscoveryEngine._validate_pattern. -/
def validatePattern (p : Pattern) : Bool :=
  if p.id.isSome && p.type.isSome && p.method.isSome
      && p.success_metrics.isSome && p.implementation.isSome then
    if (p.success_metrics.getD ⟨none, none, none⟩).min_profit.isSome
        && (p.success_metrics.getD ⟨none, none, none⟩).min_roi.isSome
        && (p.success_metrics.getD ⟨none, none, none⟩).automation_level.isSome then
      if (p.implementation.getD ⟨none, none, none⟩).platform.isSome
          && (p.implementation.getD ⟨none, none, none⟩).traffic_source.isSome
          && (p.implementation.getD ⟨none, none, none⟩).compute_needs.isSome then
        ((p.implementation.getD ⟨none, none, none⟩).compute_needs.getD ⟨none, none, none⟩).cpu.isSome
          && ((p.implementation.getD ⟨none, none, none⟩).compute_needs.getD ⟨none, none, none⟩).memory.isSome
          && ((p.implementation.getD ⟨none, none, none⟩).compute_needs.getD ⟨none, none, none⟩).storage.isSome
      else false
    else false
  else false

/-- Embeds PatternDiscoveryEngine.discover_patterns: keep exactly the
patterns accepted by the structural gate, in order. -/
def discoverPatterns (ps : List Pattern) : List Pattern :=
  ps.filter (fun p => validatePattern p)

/-- Stated from the claim wording: the pattern is missing at least one
required field, either a top-level one, or one inside success-criteria,
implementation, or compute-needs. -/
def missingRequiredField (p : Pattern) : Bool :=
  p.id.isNone || p.type.isNone || p.method.isNone
    || p.success_metrics.isNone || p.implementation.isNone
    || (p.success_metrics.getD ⟨none, none, none⟩).min_profit.isNone
    || (p.success_metrics.getD ⟨none, none, none⟩).min_roi.isNone
    || (p.success_metrics.getD ⟨none, none, none⟩).automation_level.isNone
    || (p.implementation.getD ⟨none, none, none⟩).platform.isNone
    || (p.implementation.getD ⟨none, none, none⟩).traffic_source.isNone
    || (p.implementation.getD ⟨none, none, none⟩).compute_needs.isNone
    || ((p.implementation.getD ⟨none, none, none⟩).compute_needs.getD ⟨none, none, none⟩).cpu.isNone
    || ((p.implementation.getD ⟨none, none, none⟩).compute_needs.getD ⟨none, none, none⟩).memory.isNone
    || ((p.implementation.getD ⟨none, none, none⟩).compute_needs.getD ⟨none, none, none⟩).storage.isNone

/-! ## MethodDiscoveryAgent scoring
Embedding of MethodDiscoveryAgent._validate_method and the acceptance
filter inside discover_methods. -/

/-- Embeds the body of MethodDiscoveryAgent._validate_method, acting on the
metrics record (the Python code reads method.get(metrics-key, empty) and
then each numeric key with default 0). -/
def validateMethodScore (m : Metrics) : ℚ :=
  let profit_score := min 1 ((m.monthly_profit.getD 0) / 1000)
  let startup_score := 1 - (m.startup_cost.getD 0) / 1000
  let automation_score := m.automation_level.getD 0
  let startup_cost := m.startup_cost.getD 0
  let monthly_profit := m.monthly_profit.getD 0
  let roi := if startup_cost > 0 then monthly_profit / startup_cost else 1
  let roi_score := min 1 (roi / 2)
  profit_score * (3 / 10) + startup_score * (1 / 5)
    + automation_score * (3 / 10) + roi_score * (1 / 5)

/-- The validation score of a method, reading its metrics sub-record. -/
def methodScore (p : Pattern) : ℚ :=
  validateMethodScore (p.metrics.getD ⟨none, none, none⟩)

/-- Embeds the acceptance loop of MethodDiscoveryAgent.discover_methods:
a method is kept exactly when its validation score reaches 0.6. -/
def discoverMethods (ms : List Pattern) : List Pattern :=
  ms.filter (fun m => decide (3 / 5 ≤ methodScore m))

/-! ## LegalAssessmentAgent aggregation
Embedding of the score aggregation at the end of
LegalAssessmentAgent.assess_method.  The three sub-scores are produced by
external collaborators (compliance checks and risk heuristics); the
assessed combination and the approval threshold are what is embedded. -/

/-- Embeds the compliance-score combination in
LegalAssessmentAgent.assess_method. -/
def complianceScore (platform_score regulatory_score risk_score : ℚ) : ℚ :=
  platform_score * (2 / 5) + regulatory_score * (2 / 5)
    + (1 - risk_score) * (1 / 5)

/-- Embeds the overall-status assignment in
LegalAssessmentAgent.assess_method. -/
def overallStatus (platform_score regulatory_score risk_score : ℚ) : String :=
  if 7 / 10 ≤ complianceScore platform_score regulatory_score risk_score
  then "approved" else "rejected"

/-! ## MetaLearningCore lifecycle constants (success_metrics dictionary) -/

/-- Constant min_profit_threshold from MetaLearningCore.success_metrics. -/
def min_profit_threshold : ℚ := 10

/-- Constant min_roi_threshold from MetaLearningCore.success_metrics. -/
def min_roi_threshold : ℚ := 3 / 10

/-- Constant reinvestment_rate from MetaLearningCore.success_metrics. -/
def reinvestment_rate : ℚ := 7 / 10

/-- Constant hunter_allocation from MetaLearningCore.success_metrics. -/
def hunter_allocation : ℚ := 1 / 5

/-- Constant owner_allocation from MetaLearningCore.success_metrics. -/
def owner_allocation : ℚ := 1 / 10

/-- Embeds MetaLearningCore._get_minimum_spawn_cost. -/
def minimumSpawnCost : ℚ := 10

/-! ## Swarm records and registry operations -/

/-- The fields of a swarm record that the claims depend on: the template it
was built from, its status string, and (for reinvestment spawns only) its
budget.  Test swarms carry no budget key, hence the Option. -/
structure SwarmRec where
  template : String
  status : String
  budget : Option ℚ
  deriving DecidableEq

/-- Embeds the record construction in MetaLearningCore._spawn_new_swarm:
status starts as spawning and the budget is the reinvested amount. -/
def spawnNewSwarm (template : String) (budget : ℚ) : SwarmRec :=
  { template := template, status := "spawning", budget := some budget }

/-- Embeds the record construction in MetaLearningCore._deploy_test_swarm:
status starts as testing and no budget key is present. -/
def deployTestSwarm (template : String) : SwarmRec :=
  { template := template, status := "testing", budget := none }

/-- The active-swarm registry: a Python dict in insertion order with unique
keys, modelled as an association list. -/
abbrev Registry := List (String × SwarmRec)

/-- Dictionary lookup on the registry. -/
def lookupSwarm (reg : Registry) (sid : String) : Option SwarmRec :=
  (reg.find? (fun e => e.1 == sid)).map (fun e => e.2)

/-- Dictionary assignment: overwrite in place when the key exists,
append otherwise. -/
def insertSwarm (reg : Registry) (sid : String) (v : SwarmRec) : Registry :=
  if reg.any (fun e => e.1 == sid) then
    reg.map (fun e => if e.1 == sid then (sid, v) else e)
  else reg ++ [(sid, v)]

/-- Embeds the identifier generation in MetaLearningCore._spawn_new_swarm:
the spawn prefix followed by the current registry size. -/
def spawnSwarmId (reg : Registry) : String :=
  "spawn_swarm_" ++ toString reg.length

/-- Embeds MetaLearningCore._spawn_new_swarm acting on the registry. -/
def spawnIntoRegistry (reg : Registry) (template : String) (budget : ℚ) : Registry :=
  insertSwarm reg (spawnSwarmId reg) (spawnNewSwarm template budget)

/-- Embeds the registry effect of MetaLearningCore._sunset_swarm: delete the
entry when present, return unchanged otherwise. -/
def sunsetFromRegistry (reg : Registry) (sid : String) : Registry :=
  if (lookupSwarm reg sid).isSome then
    reg.filter (fun e => e.1 != sid)
  else reg

/-! ## Production lifecycle loop bodies
One poll of each lifecycle loop, as a pure step function of the polled
profit and roi.  The MetaLearningCore step records which downstream effects
fire; terminated reports whether the loop breaks on this poll. -/

/-- Result of one poll of MetaLearningCore._manage_swarm_lifecycle. -/
structure MlStepResult where
  spawnedSwarm : Option SwarmRec
  hunterFunded : Option ℚ
  ownerPaid : Option ℚ
  terminated : Bool
  deriving DecidableEq

/-- Embeds the loop body of MetaLearningCore._manage_swarm_lifecycle: the
reinvestment branch runs whenever profit is positive, and the sunset check
on roi runs on every poll afterwards. -/
def mlLifecycleStep (template : String) (profit roi : ℚ) : MlStepResult :=
  if profit > 0 then
    let reinvestment := profit * reinvestment_rate
    let hunter_budget := profit * hunter_allocation
    let owner_payout := profit * owner_allocation
    { spawnedSwarm :=
        if minimumSpawnCost ≤ reinvestment then
          some (spawnNewSwarm template reinvestment)
        else none,
      hunterFunded := if hunter_budget > 0 then some hunter_budget else none,
      ownerPaid := if owner_payout > 0 then some owner_payout else none,
      terminated := decide (roi < min_roi_threshold) }
  else
    { spawnedSwarm := none, hunterFunded := none, ownerPaid := none,
      terminated := decide (roi < min_roi_threshold) }

/-- Total amount the MetaLearningCore step disburses out of a profit poll:
the spawned budget plus hunter funding plus owner payout. -/
def disbursedTotal (r : MlStepResult) : ℚ :=
  (r.spawnedSwarm.bind SwarmRec.budget).getD 0
    + r.hunterFunded.getD 0 + r.ownerPaid.getD 0

/-- Result of one poll of SwarmController._manage_lifecycle. -/
structure ScStepResult where
  infraScaled : Option ℚ
  hunterFunded : Option ℚ
  ownerPaid : Option ℚ
  terminated : Bool
  deriving DecidableEq

/-- Embeds the loop body of SwarmController._manage_lifecycle together with
SwarmController._reinvest_profits: positive profit takes the reinvestment
branch, and only otherwise is the roi sunset check reached. -/
def scLifecycleStep (profit roi : ℚ) : ScStepResult :=
  if profit > 0 then
    let reinvestment := profit * (7 / 10)
    let hunter_budget := profit * (1 / 5)
    let owner_payout := profit * (1 / 10)
    { infraScaled := if reinvestment > 0 then some reinvestment else none,
      hunterFunded := if hunter_budget > 0 then some hunter_budget else none,
      ownerPaid := if owner_payout > 0 then some owner_payout else none,
      terminated := false }
  else if roi < 3 / 10 then
    { infraScaled := none, hunterFunded := none, ownerPaid := none,
      terminated := true }
  else
    { infraScaled := none, hunterFunded := none, ownerPaid := none,
      terminated := false }

/-- Embeds the profit-allocation lines of SwarmController._reinvest_profits:
the three buckets computed from a realized profit. -/
def reinvestProfits (profit : ℚ) : ℚ × ℚ × ℚ :=
  (profit * (7 / 10), profit * (1 / 5), profit * (1 / 10))

/-! ## Test-swarm monitoring
MetaLearningCore._monitor_test_swarm polls once per minute within a bounded
window.  The window is rendered as the number of polls it allows and the
sequence of collected metric snapshots as a function from poll index to a
profit-roi pair.  The function returns whether the loop returned success
and how many polls it performed before returning. -/

/-- Success condition checked on each poll of
MetaLearningCore._monitor_test_swarm. -/
def testSuccess (m : ℚ × ℚ) : Prop :=
  min_profit_threshold ≤ m.1 ∧ min_roi_threshold ≤ m.2

instance (m : ℚ × ℚ) : Decidable (testSuccess m) :=
  inferInstanceAs (Decidable (_ ∧ _))

/-- Embeds the polling loop of MetaLearningCore._monitor_test_swarm: return
true at the first successful poll, false once the window elapses; the
second component counts the polls performed. -/
def monitorTestRun : ℕ → (ℕ → ℚ × ℚ) → Bool × ℕ
  | 0, _ => (false, 0)
  | n + 1, f =>
    if testSuccess (f 0) then (true, 1)
    else
      ((monitorTestRun n fun i => f (i + 1)).1,
        (monitorTestRun n fun i => f (i + 1)).2 + 1)

/-- The boolean outcome of MetaLearningCore._monitor_test_swarm. -/
def monitorTestSwarm (n : ℕ) (f : ℕ → ℚ × ℚ) : Bool :=
  (monitorTestRun n f).1

/-- Embeds the branch in MetaLearningCore.run_discovery_cycle that follows
the test window: a successful test swarm is scaled into production, an
unsuccessful one is sunset. -/
def testOutcome (n : ℕ) (f : ℕ → ℚ × ℚ) : String :=
  if monitorTestSwarm n f then "production" else "terminated"

/-! ## Knowledge-graph relationship discovery
Embedding of MetaLearningCore._find_related_patterns.  The knowledge graph
is rendered as the ordered list of entries it iterates over, each holding
the template identifier and the pattern stored with it. -/

/-- Embeds the Python lower method on strings: every character mapped to
its lower-case form. -/
def lowerStr (s : String) : String :=
  ⟨s.data.map Char.toLower⟩

/-- A relationship edge added to related_patterns. -/
structure Edge where
  id : String
  relationship : String
  similarity_score : ℚ
  deriving DecidableEq

/-- The body of the scan loop of MetaLearningCore._find_related_patterns
for one existing entry: up to three independent edges, one per matching
relationship kind, in source order. -/
def relatedEdgesFor (template_id : String) (tp p : Pattern) : List Edge :=
  (if lowerStr (tp.type.getD "") = lowerStr (p.type.getD "")
      ∧ p.id ≠ some template_id then
    [⟨template_id, "same_type", 4 / 5⟩]
  else []) ++
  (if lowerStr (tp.method.getD "") = lowerStr (p.method.getD "")
      ∧ p.id ≠ some template_id then
    [⟨template_id, "same_method", 9 / 10⟩]
  else []) ++
  (if (tp.implementation.getD ⟨none, none, none⟩).platform
      = (p.implementation.getD ⟨none, none, none⟩).platform then
    [⟨template_id, "same_platform", 7 / 10⟩]
  else [])

/-- Embeds MetaLearningCore._find_related_patterns: scan every existing
knowledge-graph entry in order, appending the edges found for each. -/
def findRelatedPatterns : List (String × Pattern) → Pattern → List Edge
  | [], _ => []
  | e :: rest, p => relatedEdgesFor e.1 e.2 p ++ findRelatedPatterns rest p

/-! ## Concrete records used to instantiate the theorems -/

/-- A structurally complete pattern whose metrics record carries a startup
cost above the 1000 ceiling. -/
def outOfRangePattern : Pattern :=
  { id := some "ce_001", type := some "ecommerce", method := some "x",
    success_metrics := some ⟨some 100, some (3 / 10), some (1 / 2)⟩,
    implementation := some ⟨some "shopify", some "seo",
      some ⟨some "minimal", some "512MB", some "1GB"⟩⟩,
    metrics := some ⟨some 0, some 2000, some 0⟩ }

/-- A structurally complete pattern with in-range metrics. -/
def inRangePattern : Pattern :=
  { id := some "ok_001", type := some "ecommerce", method := some "dropshipping",
    success_metrics := some ⟨some 500, some (3 / 10), some (17 / 20)⟩,
    implementation := some ⟨some "shopify", some "tiktok",
      some ⟨some "minimal", some "512MB", some "1GB"⟩⟩,
    metrics := some ⟨some 500, some 50, some (17 / 20)⟩ }

/-- A pattern missing the min-roi key inside its success-criteria. -/
def missingFieldPattern : Pattern :=
  { id := some "gap_001", type := some "ecommerce", method := some "dropshipping",
    success_metrics := some ⟨some 100, none, some (1 / 2)⟩,
    implementation := some ⟨some "shopify", some "seo",
      some ⟨some "minimal", some "512MB", some "1GB"⟩⟩,
    metrics := none }

/-- The pattern stored with an existing knowledge-graph entry, sharing
category and platform with the new pattern below but not its method. -/
def relTemplatePattern : Pattern :=
  { id := some "old_001", type := some "ecommerce", method := some "dropshipping",
    success_metrics := none,
    implementation := some ⟨some "shopify", some "tiktok", none⟩,
    metrics := none }

/-- A freshly discovered pattern sharing category and platform with
relTemplatePattern. -/
def relNewPattern : Pattern :=
  { id := some "new_001", type := some "ecommerce", method := some "api_service",
    success_metrics := none,
    implementation := some ⟨some "shopify", some "seo", none⟩,
    metrics := none }

/-- The pattern stored with an existing knowledge-graph entry, sharing only
its method with the new pattern below. -/
def relMethodTemplatePattern : Pattern :=
  { id := some "old_002", type := some "automation", method := some "dropshipping",
    success_metrics := none,
    implementation := some ⟨some "github", some "organic", none⟩,
    metrics := none }

/-- A freshly discovered pattern sharing only its method with
relMethodTemplatePattern. -/
def relMethodNewPattern : Pattern :=
  { id := some "new_002", type := some "content", method := some "dropshipping",
    success_metrics := none,
    implementation := some ⟨some "medium", some "seo", none⟩,
    metrics := none }

/-- The pattern stored with an existing knowledge-graph entry, sharing
category, method and platform with the new pattern below. -/
def relAllTemplatePattern : Pattern :=
  { id := some "old_003", type := some "saas", method := some "api_service",
    success_metrics := none,
    implementation := some ⟨some "vercel", some "api_marketplace", none⟩,
    metrics := none }

/-- A freshly discovered pattern sharing category, method and platform with
relAllTemplatePattern. -/
def relAllNewPattern : Pattern :=
  { id := some "new_003", type := some "saas", method := some "api_service",
    success_metrics := none,
    implementation := some ⟨some "vercel", some "seo", none⟩,
    metrics := none }

/-! ## Theorems -/

/-- Claim C1: the weighted validation score equals the stated linear
combination 0.3 min(1, monthly_profit/1000) + 0.2 (1 - startup_cost/1000)
+ 0.3 automation_level + 0.2 min(1, roi/2) with roi = monthly_profit /
startup_cost when startup_cost is positive and 1 otherwise; a method is
accepted exactly when the score reaches 0.6; and the method with
monthly_profit 500, startup_cost 50, automation_level 0.85 scores exactly
0.795 and is accepted. -/
theorem weighted_validation_score :
    (∀ m : Metrics,
      validateMethodScore m =
        3 / 10 * min 1 (m.monthly_profit.getD 0 / 1000)
          + 1 / 5 * (1 - m.startup_cost.getD 0 / 1000)
          + 3 / 10 * m.automation_level.getD 0
          + 1 / 5 * min 1 ((if m.startup_cost.getD 0 > 0
              then m.monthly_profit.getD 0 / m.startup_cost.getD 0 else 1) / 2))
    ∧ (∀ (p : Pattern) (ps : List Pattern),
        p ∈ discoverMethods ps ↔ p ∈ ps ∧ 3 / 5 ≤ methodScore p)
    ∧ validateMethodScore ⟨some 500, some 50, some (17 / 20)⟩ = 159 / 200
    ∧ 3 / 5 ≤ validateMethodScore ⟨some 500, some 50, some (17 / 20)⟩ := by
  have hval : validateMethodScore ⟨some 500, some 50, some (17 / 20)⟩ = 159 / 200 := by
    norm_num [validateMethodScore, min_def]
  refine ⟨fun m => ?_, fun p ps => ?_, hval, by rw [hval]; norm_num⟩
  · simp only [validateMethodScore]
    ring
  · simp [discoverMethods, List.mem_filter]

/-- Claim C6: the overall compliance score is the stated combination
0.4 platform + 0.4 regulatory + 0.2 (1 - risk), and the assessment is
approved exactly when the score reaches 0.7: a score of exactly 0.7
approves, a score of 0.699999 rejects. -/
theorem compliance_threshold :
    (∀ platform_score regulatory_score risk_score : ℚ,
      complianceScore platform_score regulatory_score risk_score
        = 2 / 5 * platform_score + 2 / 5 * regulatory_score
          + 1 / 5 * (1 - risk_score)
      ∧ (overallStatus platform_score regulatory_score risk_score = "approved"
          ↔ 7 / 10 ≤ complianceScore platform_score regulatory_score risk_score))
    ∧ complianceScore (7 / 10) (7 / 10) (3 / 10) = 7 / 10
    ∧ overallStatus (7 / 10) (7 / 10) (3 / 10) = "approved"
    ∧ complianceScore (699999 / 1000000) (699999 / 1000000) (300001 / 1000000)
        = 699999 / 1000000
    ∧ overallStatus (699999 / 1000000) (699999 / 1000000) (300001 / 1000000)
        = "rejected" := by
  have hex : complianceScore (7 / 10) (7 / 10) (3 / 10) = 7 / 10 := by
    norm_num [complianceScore]
  have hex2 : complianceScore (699999 / 1000000) (699999 / 1000000) (300001 / 1000000)
      = 699999 / 1000000 := by
    norm_num [complianceScore]
  refine ⟨fun a b c => ⟨by unfold complianceScore; ring, ?_⟩,
    hex, by rw [overallStatus, hex]; norm_num, hex2,
    by rw [overallStatus, hex2]; norm_num⟩
  unfold overallStatus
  by_cases h : 7 / 10 ≤ complianceScore a b c
  · rw [if_pos h]
    exact iff_of_true rfl h
  · rw [if_neg h]
    exact iff_of_false (by decide) h

/-- Claim C4: for a realized profit p greater than 0, the reinvestment
allocation produces exactly the buckets 0.7 p, 0.2 p and 0.1 p, their sum
is exactly p, and the lifecycle step funds the hunter and owner buckets
with those amounts. -/
theorem reinvestment_split (p : ℚ) (hp : 0 < p) :
    (reinvestProfits p).1 = 7 / 10 * p
    ∧ (reinvestProfits p).2.1 = 1 / 5 * p
    ∧ (reinvestProfits p).2.2 = 1 / 10 * p
    ∧ (reinvestProfits p).1 + (reinvestProfits p).2.1 + (reinvestProfits p).2.2 = p
    ∧ (∀ (template : String) (roi : ℚ),
        (mlLifecycleStep template p roi).hunterFunded = some (p * hunter_allocation)
        ∧ (mlLifecycleStep template p roi).ownerPaid = some (p * owner_allocation)) := by
  have hh : p * hunter_allocation > 0 := by unfold hunter_allocation; positivity
  have ho : p * owner_allocation > 0 := by unfold owner_allocation; positivity
  refine ⟨by unfold reinvestProfits; ring, by unfold reinvestProfits; ring,
    by unfold reinvestProfits; ring, by unfold reinvestProfits; ring, ?_⟩
  intro template roi
  unfold mlLifecycleStep
  rw [if_pos hp]
  exact ⟨by simp [hh], by simp [ho]⟩

/-- Witness for claim C4 at the concrete profit 100: buckets 70, 20, 10
summing to 100. -/
theorem reinvestment_split_witness :
    (reinvestProfits 100).1 = 70
    ∧ (reinvestProfits 100).2.1 = 20
    ∧ (reinvestProfits 100).2.2 = 10
    ∧ (reinvestProfits 100).1 + (reinvestProfits 100).2.1
        + (reinvestProfits 100).2.2 = 100 := by
  have h := reinvestment_split 100 (by norm_num)
  exact ⟨by rw [h.1]; norm_num, by rw [h.2.1]; norm_num,
    by rw [h.2.2.1]; norm_num, h.2.2.2.1⟩

/-- Claim C2 counterexample: in the SwarmController lifecycle loop, a poll
with positive profit 1 and roi 0.29 (below the 0.3 threshold) does not
terminate the swarm, because positive profit takes the reinvestment branch
of an if-elif and the roi check is skipped. -/
theorem roi_termination_counterexample :
    (29 / 100 : ℚ) < min_roi_threshold
    ∧ (0 : ℚ) < 1
    ∧ (scLifecycleStep 1 (29 / 100)).terminated = false := by
  refine ⟨by norm_num [min_roi_threshold], by norm_num, ?_⟩
  have h1 : (1 : ℚ) > 0 := by norm_num
  rw [scLifecycleStep, if_pos h1]

/-- Claim C2 amended: a poll of the MetaLearningCore lifecycle loop
terminates the swarm exactly when roi is below the 0.3 threshold,
regardless of the sign of profit; a poll of the SwarmController lifecycle
loop terminates the swarm exactly when profit is not positive and roi is
below the threshold, because positive profit skips the roi check. -/
theorem roi_termination_amended (template : String) (profit roi : ℚ) :
    ((mlLifecycleStep template profit roi).terminated = true
      ↔ roi < min_roi_threshold)
    ∧ ((scLifecycleStep profit roi).terminated = true
      ↔ profit ≤ 0 ∧ roi < min_roi_threshold) := by
  constructor
  · unfold mlLifecycleStep
    split <;> simp
  · unfold scLifecycleStep
    by_cases hp : profit > 0
    · rw [if_pos hp]
      simp [min_roi_threshold, not_le.mpr hp]
    · rw [if_neg hp]
      have hple : profit ≤ 0 := not_lt.mp hp
      by_cases hr : roi < 3 / 10
      · rw [if_pos hr]
        simp [min_roi_threshold, hple, hr]
      · rw [if_neg hr]
        simp [min_roi_threshold, hr]

/-- Claim C5 counterexample: the swarm spawned from a reinvestment of 70
is created with status spawning and handed to the production lifecycle
loop; its status is not the testing status that deployed test swarms
receive, so it does not recursively enter the Testing lifecycle. -/
theorem spawned_swarm_not_testing :
    (mlLifecycleStep "tmpl" 100 (2 / 5)).spawnedSwarm
      = some (spawnNewSwarm "tmpl" (100 * reinvestment_rate))
    ∧ (spawnNewSwarm "tmpl" (100 * reinvestment_rate)).status = "spawning"
    ∧ (spawnNewSwarm "tmpl" (100 * reinvestment_rate)).status
        ≠ (deployTestSwarm "tmpl").status := by
  refine ⟨?_, rfl, by decide⟩
  have h100 : (100 : ℚ) > 0 := by norm_num
  have hspawn : minimumSpawnCost ≤ (100 : ℚ) * reinvestment_rate := by
    norm_num [minimumSpawnCost, reinvestment_rate]
  rw [mlLifecycleStep, if_pos h100]
  simp [hspawn]

/-- Claim C5 amended: when the reinvestment share of a positive profit
reaches the minimum spawn cost 10, a new swarm is spawned from the same
template with budget equal to the share, created with status spawning
(entering the production lifecycle loop directly rather than the Testing
lifecycle); when the share is below 10 no swarm is spawned and the share
is not banked: only the hunter and owner buckets, totalling 0.3 p, leave
the step. -/
theorem reinvest_spawn_amended (template : String) (p roi : ℚ) (hp : 0 < p) :
    (minimumSpawnCost ≤ p * reinvestment_rate →
      (mlLifecycleStep template p roi).spawnedSwarm
        = some { template := template, status := "spawning",
                 budget := some (p * reinvestment_rate) })
    ∧ (p * reinvestment_rate < minimumSpawnCost →
      (mlLifecycleStep template p roi).spawnedSwarm = none
      ∧ disbursedTotal (mlLifecycleStep template p roi) = p * (3 / 10)
      ∧ p * (3 / 10) < p) := by
  have hh : p * hunter_allocation > 0 := by unfold hunter_allocation; positivity
  have ho : p * owner_allocation > 0 := by unfold owner_allocation; positivity
  constructor
  · intro hge
    rw [mlLifecycleStep, if_pos hp]
    simp [hge, spawnNewSwarm]
  · intro hlt
    have hnot : ¬ minimumSpawnCost ≤ p * reinvestment_rate := not_le.mpr hlt
    have hnone : (mlLifecycleStep template p roi).spawnedSwarm = none := by
      rw [mlLifecycleStep, if_pos hp]
      simp [hnot]
    refine ⟨hnone, ?_, by linarith⟩
    rw [disbursedTotal, hnone]
    have hhf : (mlLifecycleStep template p roi).hunterFunded
        = some (p * hunter_allocation) := by
      rw [mlLifecycleStep, if_pos hp]
      simp [hh]
    have hop : (mlLifecycleStep template p roi).ownerPaid
        = some (p * owner_allocation) := by
      rw [mlLifecycleStep, if_pos hp]
      simp [ho]
    rw [hhf, hop]
    unfold hunter_allocation owner_allocation
    simp only [Option.bind, Option.getD]
    ring

/-- Witness for the amended claim C5: at profit 100 the step spawns a
swarm with budget 70 and status spawning; at profit 4 the reinvestment
share 2.8 is below 10, nothing is spawned, and only 1.2 leaves the step. -/
theorem reinvest_spawn_amended_witness :
    ((mlLifecycleStep "t" 100 (2 / 5)).spawnedSwarm
      = some { template := "t", status := "spawning",
               budget := some (100 * reinvestment_rate) })
    ∧ ((mlLifecycleStep "t" 4 (2 / 5)).spawnedSwarm = none
      ∧ disbursedTotal (mlLifecycleStep "t" 4 (2 / 5)) = 4 * (3 / 10)
      ∧ (4 : ℚ) * (3 / 10) < 4) := by
  refine ⟨(reinvest_spawn_amended "t" 100 (2 / 5) (by norm_num)).1 ?_,
    (reinvest_spawn_amended "t" 4 (2 / 5) (by norm_num)).2 ?_⟩
  · norm_num [minimumSpawnCost, reinvestment_rate]
  · norm_num [minimumSpawnCost, reinvestment_rate]

/-- Helper for claim C3: the monitoring loop returns success after exactly
i + 1 polls when poll i is the first successful one. -/
lemma monitorTestRun_first_success :
    ∀ (n : ℕ) (f : ℕ → ℚ × ℚ) (i : ℕ), i < n → testSuccess (f i) →
      (∀ j, j < i → ¬ testSuccess (f j)) →
      monitorTestRun n f = (true, i + 1) := by
  intro n
  induction n with
  | zero =>
    intro f i hi
    exact absurd hi (Nat.not_lt_zero i)
  | succ n ih =>
    intro f i hi hs hmin
    by_cases h0 : testSuccess (f 0)
    · have hz : i = 0 := by
        by_contra hne
        exact hmin 0 (Nat.pos_of_ne_zero hne) h0
      subst hz
      simp only [monitorTestRun]
      rw [if_pos h0]
    · cases i with
      | zero => exact absurd hs h0
      | succ j =>
        have hrec := ih (fun k => f (k + 1)) j (Nat.lt_of_succ_lt_succ hi) hs
          (fun k hk => hmin (k + 1) (Nat.succ_lt_succ hk))
        simp only [monitorTestRun]
        rw [if_neg h0, hrec]

/-- Helper for claim C3: the monitoring loop performs all n polls and
returns failure when no poll in the window succeeds. -/
lemma monitorTestRun_window_elapsed :
    ∀ (n : ℕ) (f : ℕ → ℚ × ℚ),
      (∀ i, i < n → ¬ testSuccess (f i)) →
      monitorTestRun n f = (false, n) := by
  intro n
  induction n with
  | zero => intro f _; rfl
  | succ n ih =>
    intro f h
    have h0 := h 0 (Nat.succ_pos n)
    simp only [monitorTestRun]
    rw [if_neg h0, ih (fun k => f (k + 1)) (fun i hi => h (i + 1) (Nat.succ_lt_succ hi))]

/-- Claim C3: a Testing swarm transitions at the first poll within the
bounded window whose metrics reach both profit 10 and roi 0.3 — the loop
returns success after exactly that many polls, without waiting for the
window to elapse, and the discovery cycle promotes the pattern to
production; if no poll in the window satisfies both conditions, the loop
runs the full window, returns failure, and the swarm is sunset. -/
theorem testing_to_production (n : ℕ) (f : ℕ → ℚ × ℚ) :
    (∀ i, i < n → testSuccess (f i) → (∀ j, j < i → ¬ testSuccess (f j)) →
      monitorTestRun n f = (true, i + 1) ∧ testOutcome n f = "production")
    ∧ ((∀ i, i < n → ¬ testSuccess (f i)) →
      monitorTestRun n f = (false, n) ∧ testOutcome n f = "terminated") := by
  constructor
  · intro i hi hs hmin
    have h := monitorTestRun_first_success n f i hi hs hmin
    exact ⟨h, by simp [testOutcome, monitorTestSwarm, h]⟩
  · intro hfail
    have h := monitorTestRun_window_elapsed n f hfail
    exact ⟨h, by simp [testOutcome, monitorTestSwarm, h]⟩

/-- Witness for claim C3: with a window of 3 polls and metrics reaching
profit 15, roi 0.35 at poll 1, the loop returns success after 2 polls and
the outcome is production; with a window of 2 polls whose metrics never
reach the thresholds, the loop runs both polls and the outcome is
terminated. -/
theorem testing_to_production_witness :
    (monitorTestRun 3 (fun i => if i = 1 then ((15 : ℚ), 7 / 20) else (0, 0))
        = (true, 2)
      ∧ testOutcome 3 (fun i => if i = 1 then ((15 : ℚ), 7 / 20) else (0, 0))
        = "production")
    ∧ (monitorTestRun 2 (fun _ => ((0 : ℚ), 0)) = (false, 2)
      ∧ testOutcome 2 (fun _ => ((0 : ℚ), 0)) = "terminated") := by
  have hsucc : testSuccess ((fun i => if i = 1 then ((15 : ℚ), 7 / 20) else (0, 0)) 1) := by
    constructor <;> norm_num [min_profit_threshold, min_roi_threshold]
  have hmin : ∀ j, j < 1 →
      ¬ testSuccess ((fun i => if i = 1 then ((15 : ℚ), 7 / 20) else (0, 0)) j) := by
    intro j hj
    interval_cases j
    intro hc
    exact absurd hc.1 (by norm_num [min_profit_threshold])
  have hfail : ∀ i, i < 2 → ¬ testSuccess ((fun _ => ((0 : ℚ), 0)) i) := by
    intro i _ hc
    exact absurd hc.1 (by norm_num [min_profit_threshold])
  exact ⟨(testing_to_production 3 _).1 1 (by norm_num) hsucc hmin,
    (testing_to_production 2 _).2 hfail⟩

/-- Claim C7: related-pattern discovery scans every knowledge-graph entry
(it distributes over list concatenation) and adds one separate edge per
matching relationship kind with the fixed scores: same type 0.8, same
method 0.9, same platform 0.7.  An entry sharing type and platform only
contributes exactly the 0.8 and 0.7 edges; an entry sharing the method
only contributes exactly the 0.9 edge; an entry matching on all three
kinds contributes three distinct edges — edges are never merged or
deduplicated. -/
theorem related_patterns_per_kind :
    (∀ (g₁ g₂ : List (String × Pattern)) (p : Pattern),
      findRelatedPatterns (g₁ ++ g₂) p
        = findRelatedPatterns g₁ p ++ findRelatedPatterns g₂ p)
    ∧ (∀ (template_id : String) (tp p : Pattern),
      lowerStr (tp.type.getD "") = lowerStr (p.type.getD "") →
      lowerStr (tp.method.getD "") ≠ lowerStr (p.method.getD "") →
      (tp.implementation.getD ⟨none, none, none⟩).platform
        = (p.implementation.getD ⟨none, none, none⟩).platform →
      p.id ≠ some template_id →
      findRelatedPatterns [(template_id, tp)] p
        = [⟨template_id, "same_type", 4 / 5⟩,
           ⟨template_id, "same_platform", 7 / 10⟩])
    ∧ (∀ (template_id : String) (tp p : Pattern),
      lowerStr (tp.type.getD "") ≠ lowerStr (p.type.getD "") →
      lowerStr (tp.method.getD "") = lowerStr (p.method.getD "") →
      (tp.implementation.getD ⟨none, none, none⟩).platform
        ≠ (p.implementation.getD ⟨none, none, none⟩).platform →
      p.id ≠ some template_id →
      findRelatedPatterns [(template_id, tp)] p
        = [⟨template_id, "same_method", 9 / 10⟩])
    ∧ (∀ (template_id : String) (tp p : Pattern),
      lowerStr (tp.type.getD "") = lowerStr (p.type.getD "") →
      lowerStr (tp.method.getD "") = lowerStr (p.method.getD "") →
      (tp.implementation.getD ⟨none, none, none⟩).platform
        = (p.implementation.getD ⟨none, none, none⟩).platform →
      p.id ≠ some template_id →
      findRelatedPatterns [(template_id, tp)] p
        = [⟨template_id, "same_type", 4 / 5⟩,
           ⟨template_id, "same_method", 9 / 10⟩,
           ⟨template_id, "same_platform", 7 / 10⟩]) := by
  refine ⟨?_, ?_, ?_, ?_⟩
  · intro g₁ g₂ p
    induction g₁ with
    | nil => simp [findRelatedPatterns]
    | cons e rest ih => simp [findRelatedPatterns, ih]
  · intro template_id tp p h1 h2 h3 h4
    have hnot : ¬ (lowerStr (tp.method.getD "") = lowerStr (p.method.getD "")
        ∧ p.id ≠ some template_id) := fun hc => h2 hc.1
    simp only [findRelatedPatterns, relatedEdgesFor]
    rw [if_pos ⟨h1, h4⟩, if_neg hnot, if_pos h3]
    rfl
  · intro template_id tp p h1 h2 h3 h4
    have hnot : ¬ (lowerStr (tp.type.getD "") = lowerStr (p.type.getD "")
        ∧ p.id ≠ some template_id) := fun hc => h1 hc.1
    simp only [findRelatedPatterns, relatedEdgesFor]
    rw [if_neg hnot, if_pos ⟨h2, h4⟩, if_neg h3]
    rfl
  · intro template_id tp p h1 h2 h3 h4
    simp only [findRelatedPatterns, relatedEdgesFor]
    rw [if_pos ⟨h1, h4⟩, if_pos ⟨h2, h4⟩, if_pos h3]
    rfl

/-- Witness for claim C7 at concrete entries: sharing category ecommerce
and platform shopify with a different method yields the two separate 0.8
and 0.7 edges; sharing only the method dropshipping yields exactly the
0.9 edge; sharing category saas, method api_service and platform vercel
yields three distinct edges. -/
theorem related_patterns_witness :
    (findRelatedPatterns [("swarm_template_0", relTemplatePattern)] relNewPattern
      = [⟨"swarm_template_0", "same_type", 4 / 5⟩,
         ⟨"swarm_template_0", "same_platform", 7 / 10⟩])
    ∧ (findRelatedPatterns [("swarm_template_1", relMethodTemplatePattern)] relMethodNewPattern
      = [⟨"swarm_template_1", "same_method", 9 / 10⟩])
    ∧ (findRelatedPatterns [("swarm_template_2", relAllTemplatePattern)] relAllNewPattern
      = [⟨"swarm_template_2", "same_type", 4 / 5⟩,
         ⟨"swarm_template_2", "same_method", 9 / 10⟩,
         ⟨"swarm_template_2", "same_platform", 7 / 10⟩]) :=
  ⟨related_patterns_per_kind.2.1 "swarm_template_0" relTemplatePattern relNewPattern
      (by decide) (by decide) (by decide) (by decide),
    related_patterns_per_kind.2.2.1 "swarm_template_1" relMethodTemplatePattern
      relMethodNewPattern (by decide) (by decide) (by decide) (by decide),
    related_patterns_per_kind.2.2.2 "swarm_template_2" relAllTemplatePattern
      relAllNewPattern (by decide) (by decide) (by decide) (by decide)⟩

/-- Claim C8: a pattern missing any required field (top level, inside
success-criteria, inside implementation, or inside compute-needs) is
rejected by the structural gate, and it never appears among the discovered
patterns, so no score is ever computed for it downstream. -/
theorem structural_gate_rejects (p : Pattern) (ps : List Pattern)
    (h : missingRequiredField p = true) :
    validatePattern p = false ∧ p ∉ discoverPatterns ps := by
  have hv : validatePattern p = false := by
    simp only [missingRequiredField, Bool.or_eq_true,
      Option.isNone_iff_eq_none] at h
    rcases h with (((((((((((((h | h) | h) | h) | h) | h) | h) | h) | h) | h)
      | h) | h) | h) | h) <;> simp [validatePattern, h]
  exact ⟨hv, by simp [discoverPatterns, List.mem_filter, hv]⟩

/-- Witness for claim C8: the pattern missing the min-roi key is flagged
as missing a required field, fails the gate, and is excluded from
discovery. -/
theorem structural_gate_rejects_witness :
    missingRequiredField missingFieldPattern = true
    ∧ (validatePattern missingFieldPattern = false
      ∧ missingFieldPattern ∉ discoverPatterns [missingFieldPattern]) :=
  ⟨by decide,
    structural_gate_rejects missingFieldPattern [missingFieldPattern] (by decide)⟩

/-- Claim C9 counterexample: a structurally complete pattern whose metrics
carry startup_cost 2000 passes the gate yet scores -0.2, outside [0, 1];
the gate checks only field presence, never numeric ranges. -/
theorem score_out_of_range_counterexample :
    validatePattern outOfRangePattern = true
    ∧ methodScore outOfRangePattern = -(1 / 5)
    ∧ ¬ (0 ≤ methodScore outOfRangePattern ∧ methodScore outOfRangePattern ≤ 1) := by
  have hscore : methodScore outOfRangePattern = -(1 / 5) := by
    norm_num [methodScore, validateMethodScore, outOfRangePattern, min_def]
  refine ⟨by decide, hscore, ?_⟩
  rw [hscore]
  intro hc
  exact absurd hc.1 (by norm_num)

/-- Helper for claim C9: the score lies in [0, 1] whenever the metrics are
in range: nonnegative monthly profit, startup cost between 0 and 1000, and
automation level between 0 and 1. -/
lemma validateMethodScore_bounds (m : Metrics)
    (hmp : 0 ≤ m.monthly_profit.getD 0)
    (hsc0 : 0 ≤ m.startup_cost.getD 0)
    (hsc1 : m.startup_cost.getD 0 ≤ 1000)
    (hal0 : 0 ≤ m.automation_level.getD 0)
    (hal1 : m.automation_level.getD 0 ≤ 1) :
    0 ≤ validateMethodScore m ∧ validateMethodScore m ≤ 1 := by
  simp only [validateMethodScore]
  have ha0 : (0 : ℚ) ≤ min 1 (m.monthly_profit.getD 0 / 1000) :=
    le_min (by norm_num) (by positivity)
  have ha1 : min 1 (m.monthly_profit.getD 0 / 1000) ≤ 1 := min_le_left _ _
  have hb0 : (0 : ℚ) ≤ 1 - m.startup_cost.getD 0 / 1000 := by
    have : m.startup_cost.getD 0 / 1000 ≤ 1 := by
      rw [div_le_one (by norm_num)]
      exact hsc1
    linarith
  have hb1 : 1 - m.startup_cost.getD 0 / 1000 ≤ 1 := by
    have : (0 : ℚ) ≤ m.startup_cost.getD 0 / 1000 := by positivity
    linarith
  have hroi : (0 : ℚ) ≤ (if m.startup_cost.getD 0 > 0
      then m.monthly_profit.getD 0 / m.startup_cost.getD 0 else 1) := by
    split
    · exact div_nonneg hmp hsc0
    · norm_num
  have hd0 : (0 : ℚ) ≤ min 1 ((if m.startup_cost.getD 0 > 0
      then m.monthly_profit.getD 0 / m.startup_cost.getD 0 else 1) / 2) :=
    le_min (by norm_num) (by linarith)
  have hd1 : min 1 ((if m.startup_cost.getD 0 > 0
      then m.monthly_profit.getD 0 / m.startup_cost.getD 0 else 1) / 2) ≤ 1 :=
    min_le_left _ _
  constructor <;> nlinarith

/-- Claim C9 amended: passing the structural gate alone does not confine
the score to [0, 1]; the score of a gate-passing pattern lies in [0, 1]
provided its metrics are additionally in range: monthly profit
nonnegative, startup cost between 0 and the 1000 ceiling, and automation
level between 0 and 1. -/
theorem score_in_unit_interval (p : Pattern)
    (_hgate : validatePattern p = true)
    (hmp : 0 ≤ (p.metrics.getD ⟨none, none, none⟩).monthly_profit.getD 0)
    (hsc0 : 0 ≤ (p.metrics.getD ⟨none, none, none⟩).startup_cost.getD 0)
    (hsc1 : (p.metrics.getD ⟨none, none, none⟩).startup_cost.getD 0 ≤ 1000)
    (hal0 : 0 ≤ (p.metrics.getD ⟨none, none, none⟩).automation_level.getD 0)
    (hal1 : (p.metrics.getD ⟨none, none, none⟩).automation_level.getD 0 ≤ 1) :
    0 ≤ methodScore p ∧ methodScore p ≤ 1 :=
  validateMethodScore_bounds _ hmp hsc0 hsc1 hal0 hal1

/-- Witness for the amended claim C9: a complete pattern with in-range
metrics passes the gate and its score lies in [0, 1]. -/
theorem score_in_unit_interval_witness :
    0 ≤ methodScore inRangePattern ∧ methodScore inRangePattern ≤ 1 :=
  score_in_unit_interval inRangePattern (by decide)
    (by norm_num [inRangePattern]) (by norm_num [inRangePattern])
    (by norm_num [inRangePattern]) (by norm_num [inRangePattern])
    (by norm_num [inRangePattern])

/-- Claim C10: spawn identifiers are generated from the current registry
size, and sunsetting deletes entries; after spawning twice, sunsetting the
first swarm and spawning again, the new swarm receives the identifier of
the still-active second swarm and its insertion overwrites that entry —
the registry size does not grow, so uniqueness of active-registry keys
over time is not an invariant. -/
theorem swarm_id_collision :
    spawnSwarmId
        (sunsetFromRegistry
          (spawnIntoRegistry (spawnIntoRegistry [] "tmpl" 20) "tmpl" 30)
          "spawn_swarm_0")
      = "spawn_swarm_1"
    ∧ lookupSwarm
        (sunsetFromRegistry
          (spawnIntoRegistry (spawnIntoRegistry [] "tmpl" 20) "tmpl" 30)
          "spawn_swarm_0")
        "spawn_swarm_1"
      = some { template := "tmpl", status := "spawning", budget := some 30 }
    ∧ lookupSwarm
        (spawnIntoRegistry
          (sunsetFromRegistry
            (spawnIntoRegistry (spawnIntoRegistry [] "tmpl" 20) "tmpl" 30)
            "spawn_swarm_0")
          "tmpl" 40)
        "spawn_swarm_1"
      = some { template := "tmpl", status := "spawning", budget := some 40 }
    ∧ (spawnIntoRegistry
          (sunsetFromRegistry
            (spawnIntoRegistry (spawnIntoRegistry [] "tmpl" 20) "tmpl" 30)
            "spawn_swarm_0")
          "tmpl" 40).length
      = (sunsetFromRegistry
          (spawnIntoRegistry (spawnIntoRegistry [] "tmpl" 20) "tmpl" 30)
          "spawn_swarm_0").length :=
  ⟨rfl, rfl, rfl, rfl⟩

end BlackboxOrch
